import Mathlib

/-! Shallow embedding of `firmware/main/flatbuffers_streaming_json_visitor.h`:
a streaming JSON demultiplexer that tracks the structural path through the
document, matches it against wildcard patterns, reconstructs the JSON text of
matched subtrees (rewriting keyed tables recognised via schema reflection),
and hands each completed subtree to an external flatbuffer encode/verify/
decode pipeline. External collaborators (picojson tokenizer, flatbuffers
parser/verifier, sink callbacks) are modelled as boolean-valued oracles in an
environment record; the handler state is modelled field-for-field. -/

/-- Definition of the wildcard marker, from `constexpr char wildcard_sym[] = "*"`. -/
def wildcard_sym : String := "*"

/-- Segment comparison used by path matching, from `equality_or_wildcard`:
true when the pattern segment is the wildcard marker or equals the concrete
segment. -/
def equality_or_wildcard (root current : String) : Bool :=
  (root == wildcard_sym) || (root == current)

/-- Element-wise comparison of the first list against the leading elements of
the second, modelling `std::equal(first1, last1, first2, pred)`; false when
the second list runs out before the first. -/
def equalBy (p : String → String → Bool) : List String → List String → Bool
  | [], _ => true
  | _ :: _, [] => false
  | a :: as, b :: bs => p a b && equalBy p as bs

/-- Path pattern matching, from `is_a_subpath`: true when the pattern
`root_path` is empty, or the concrete `current_path` is at least as long and
`std::equal` with `equality_or_wildcard` accepts the pattern against the
leading segments of the concrete path. -/
def is_a_subpath (current_path root_path : List String) : Bool :=
  root_path.isEmpty ||
    (decide (root_path.length ≤ current_path.length) &&
     equalBy equality_or_wildcard root_path current_path)

/-- Base types of reflection fields that the code distinguishes:
`reflection::Obj`, `reflection::Vector`, and everything else. -/
inductive BaseType where
  | Obj : BaseType
  | Vector : BaseType
  | Other : BaseType
deriving DecidableEq, Repr

/-- Reflection metadata of one field: its name, base type, type index into
the schema object table, and (for vectors) the element base type. -/
structure ReflField where
  name : String
  base_type : BaseType
  index : Int
  element : BaseType
deriving DecidableEq, Repr

/-- Reflection metadata of one table; the fields vector may be null. -/
structure ReflObject where
  fields : Option (List ReflField)
deriving DecidableEq, Repr

/-- Binary reflection schema: object table plus root table index. -/
structure ReflSchema where
  objects : List ReflObject
  root : Nat
deriving DecidableEq, Repr

/-- Lookup of a field by name, modelling
`fields->LookupByKey(name)` (field names in a flatbuffers table are unique,
so the first hit is the hit). -/
def fieldsLookupByKey (fs : List ReflField) (key : String) : Option ReflField :=
  fs.find? (fun f => f.name == key)

/-- Access `schema->objects()->Get(i)` through a possibly-null schema
pointer; an out-of-range or negative index yields none (null). -/
def schemaObjectsGet (sc : Option ReflSchema) (i : Int) : Option ReflObject :=
  match sc with
  | none => none
  | some c => if 0 ≤ i then c.objects.get? i.toNat else none

/-- Access `schema->root_table()`. -/
def schemaRootTable (sc : Option ReflSchema) : Option ReflObject :=
  match sc with
  | none => none
  | some c => c.objects.get? c.root

/-- Which sink a dispatch ends at: the message callback or the errback. -/
inductive SinkKind where
  | message : SinkKind
  | error : SinkKind
deriving DecidableEq, Repr

/-- Mutable state of `FlatbuffersStreamingParser`, field for field.
The external `flatbuffers::Parser` object itself is outside the model; its
readiness flag is the member `flatbuffers_parser_ready`. -/
structure State where
  root_path : List String
  error_path : List String
  flatbuffers_parser_ready : Bool
  is_parse_error : Bool
  is_error_path : Bool
  object_depth : Int
  array_depth : Int
  object_idx : Int
  array_idx : Int
  current_path : List String
  current_key : String
  ss : String
  emit_json : Bool
  needs_close_array : Bool
  needs_close_object : Bool
  schema : Option ReflSchema
  reflection_table : Option ReflObject
deriving DecidableEq, Repr

/-- Environment of external collaborators: results of
`parser.SetRootType` for the error and message root types, of
`parser.Parse` on a given reconstructed text, of the two
`verifier.VerifyBuffer` calls, and of the two sink callbacks (keyed by the
reconstructed text that produced the record). -/
structure Env where
  setRootTypeOkErr : Bool
  setRootTypeOkMsg : Bool
  encodeOk : String → Bool
  verifyMsgOk : String → Bool
  verifyErrOk : String → Bool
  callback : String → Bool
  errback : String → Bool

/-- Initial member values of `FlatbuffersStreamingParser` before the
constructor body runs. -/
def initState : State :=
  { root_path := []
    error_path := []
    flatbuffers_parser_ready := false
    is_parse_error := false
    is_error_path := false
    object_depth := 0
    array_depth := 0
    object_idx := 0
    array_idx := 0
    current_path := []
    current_key := ""
    ss := ""
    emit_json := false
    needs_close_array := false
    needs_close_object := false
    schema := none
    reflection_table := none }

/-- State reset, from `clear()`: resets the sticky error flag, the
error-path flag, the depth and index counters, the current path and key, the
output stream and the emit/wrapper flags; touches nothing else. -/
def clear (s : State) : State :=
  { s with
    is_parse_error := false
    is_error_path := false
    object_depth := 0
    array_depth := 0
    object_idx := 0
    array_idx := 0
    current_path := []
    current_key := ""
    ss := ""
    emit_json := false
    needs_close_array := false
    needs_close_object := false }

/-- Text schema loading, from `parse_flatbuffers_text_schema`: requires a
non-empty buffer whose last byte is the null terminator, then defers to the
external `parser.Parse`, whose outcome is the oracle `parseOk`. -/
def parse_flatbuffers_text_schema (parseOk : Bool) (buf : List Nat) : Bool :=
  if !buf.isEmpty then
    if buf.getLastD 1 == 0 then parseOk else false
  else false

/-- Binary schema loading, from `parse_flatbuffers_binary_schema`: requires
a non-empty null-terminated buffer, external verification (oracle
`verifyOk`), and a non-null `reflection::GetSchema` result (oracle
`getSchema`). Returns the success flag together with the value left in the
`schema` member (none when the member was not assigned on this path). -/
def parse_flatbuffers_binary_schema (verifyOk : Bool)
    (getSchema : Option ReflSchema) (buf : List Nat) :
    Bool × Option ReflSchema :=
  if !buf.isEmpty then
    if buf.getLastD 1 == 0 then
      if verifyOk then (getSchema.isSome, getSchema) else (false, none)
    else (false, none)
  else (false, none)

/-- Constructor of `FlatbuffersStreamingParser`: clears the state, loads the
text schema (success sets `flatbuffers_parser_ready`), then loads the binary
schema (success sets `schema` and points `reflection_table` at the schema
root table). -/
def FlatbuffersStreamingParser_mk (textParseOk verifyOk : Bool)
    (getSchema : Option ReflSchema) (text_schema binary_schema : List Nat) :
    State :=
  let s := clear initState
  let s := if parse_flatbuffers_text_schema textParseOk text_schema then
      { s with flatbuffers_parser_ready := true } else s
  let pr := parse_flatbuffers_binary_schema verifyOk getSchema binary_schema
  let s := { s with schema := pr.2 }
  if pr.1 then { s with reflection_table := schemaRootTable pr.2 } else s

/-- Keyed-table detection, from `check_for_keyed_vector_table`: when the
current reflection table has both an `id` and a `val` field and the `val`
field is object-typed with a resolvable object descriptor, point
`reflection_table` at that descriptor and report the rewrite; otherwise
descend `reflection_table` through a field named by the JSON key when that
field is an object or a vector of objects, and report no rewrite. Returns
the rewrite flag together with the new `reflection_table` member. -/
def check_for_keyed_vector_table (sc : Option ReflSchema) (key : String)
    (rt : Option ReflObject) : Bool × Option ReflObject :=
  match rt with
  | none => (false, none)
  | some t =>
    match t.fields with
    | none => (false, some t)
    | some fs =>
      match fieldsLookupByKey fs "id", fieldsLookupByKey fs "val" with
      | some _, some valf =>
        if valf.base_type = BaseType.Obj then
          match schemaObjectsGet sc valf.index with
          | some o => (true, some o)
          | none => (false, none)
        else (false, some t)
      | _, _ =>
        match fieldsLookupByKey fs key with
        | some f =>
          if f.base_type = BaseType.Obj then
            (false, schemaObjectsGet sc f.index)
          else if f.base_type = BaseType.Vector ∧ f.element = BaseType.Obj then
            (false, schemaObjectsGet sc f.index)
          else (false, some t)
        | none => (false, some t)

/-- Encoding pipeline, from `convert_json_stream_to_flatbuffer`: when the
parser is ready, set the root type per `is_error_path`, encode the
reconstructed text, verify the buffer as the selected type, and invoke
exactly the selected sink, propagating its boolean result. Returns the
overall result together with the list of sink invocations made. -/
def convert_json_stream_to_flatbuffer (env : Env) (s : State) :
    Bool × List SinkKind :=
  if s.flatbuffers_parser_ready then
    if (if s.is_error_path then env.setRootTypeOkErr else env.setRootTypeOkMsg) then
      if env.encodeOk s.ss then
        if !s.is_error_path then
          if env.verifyMsgOk s.ss then (env.callback s.ss, [SinkKind.message])
          else (false, [])
        else
          if env.verifyErrOk s.ss then (env.errback s.ss, [SinkKind.error])
          else (false, [])
      else (false, [])
    else (false, [])
  else (false, [])

/-- Dispatch of the reconstruction buffer, from `process_item`: run the
pipeline, then reset the output stream. -/
def process_item (env : Env) (s : State) : Bool × State :=
  let r := convert_json_stream_to_flatbuffer env s
  (r.1, { s with ss := "" })

/-- C truncation-toward-zero of a floating value, modelling the cast
`(int)(d)`. -/
def cIntCast (q : Rat) : Int :=
  if 0 ≤ q then ⌊q⌋ else ⌈q⌉

/-- Handler `set_null`. -/
def set_null (s : State) : State :=
  if s.emit_json then { s with ss := s.ss ++ "null" } else s

/-- Handler `set_bool`. -/
def set_bool (b : Bool) (s : State) : State :=
  if s.emit_json then { s with ss := s.ss ++ (if b then "true" else "false") } else s

/-- Handler `set_int64`. -/
def set_int64 (i : Int) (s : State) : State :=
  if s.emit_json then { s with ss := s.ss ++ toString i } else s

/-- Handler `set_number`: emits `(int)(d)`, the integer part of the floating
value truncated toward zero. -/
def set_number (q : Rat) (s : State) : State :=
  if s.emit_json then { s with ss := s.ss ++ toString (cIntCast q) } else s

/-- Handler `parse_string` (emission part): appends the decoded string with
surrounding quotes. -/
def parse_string (str : String) (s : State) : State :=
  if s.emit_json then { s with ss := s.ss ++ "\"" ++ str ++ "\"" } else s

/-- Handler `parse_array_start`. -/
def parse_array_start (s : State) : State :=
  let s := { s with array_depth := s.array_depth + 1, array_idx := 0 }
  if s.emit_json then { s with ss := s.ss ++ "[" } else s

/-- Leading part of handler `parse_array_item`, before the recursive value
parse: comma separator and index bump. -/
def parse_array_item_pre (s : State) : State :=
  let s := if s.emit_json && decide (0 < s.array_idx) then { s with ss := s.ss ++ "," } else s
  { s with array_idx := s.array_idx + 1 }

/-- Handler `parse_array_stop`. -/
def parse_array_stop (s : State) : State :=
  let s := { s with array_depth := s.array_depth - 1, array_idx := -1 }
  if s.emit_json then { s with ss := s.ss ++ "]" } else s

/-- Handler `parse_object_start`: bumps the depth only; emission is deferred
to the first key (lookahead). -/
def parse_object_start (s : State) : State :=
  { s with object_depth := s.object_depth + 1, object_idx := 0 }

/-- Locals of `parse_object_item` saved across the recursive value parse:
the previous reflection table, the keyed-table flag, and the wrapper flags
as of the end of the leading part. -/
structure Saved where
  rt : Option ReflObject
  keyed : Bool
  nca : Bool
  nco : Bool
deriving DecidableEq, Repr

/-- Emission block of `parse_object_item`: when emitting, a keyed element is
written as an array opener (or separator) followed by a tagged
element header, and a plain member as an object opener (or separator)
followed by the quoted key. -/
def parse_object_item_emit (keyed emit_json_prev : Bool) (key : String)
    (s : State) : State :=
  if s.emit_json then
    if keyed then
      let s :=
        if !emit_json_prev then s
        else if !s.needs_close_array then
          { s with ss := s.ss ++ "[", needs_close_array := true }
        else { s with ss := s.ss ++ "," }
      { s with ss := s.ss ++ "\x7b\"id\":\"" ++ key ++ "\",\"val\":",
               needs_close_object := true }
    else
      let s :=
        if !s.needs_close_object then
          { s with ss := s.ss ++ "\x7b", needs_close_object := true }
        else { s with ss := s.ss ++ "," }
      { s with ss := s.ss ++ "\"" ++ key ++ "\":" }
  else s

/-- Leading part of handler `parse_object_item`, up to the recursive value
parse: keyed-table check, key push, error-then-message pattern evaluation,
emission block, and save/zero of the wrapper flags. -/
def parse_object_item_pre (key : String) (s : State) : State × Saved :=
  let rt_prev := s.reflection_table
  let ck := check_for_keyed_vector_table s.schema key s.reflection_table
  let s := { s with reflection_table := ck.2, current_key := key,
                    current_path := s.current_path ++ [key] }
  let iep := is_a_subpath s.current_path s.error_path
  let emit_json_prev := s.emit_json
  let s := { s with is_error_path := iep,
                    emit_json := iep || is_a_subpath s.current_path s.root_path }
  let s := parse_object_item_emit ck.1 emit_json_prev key s
  let saved : Saved := ⟨rt_prev, ck.1, s.needs_close_array, s.needs_close_object⟩
  ({ s with needs_close_array := false, needs_close_object := false }, saved)

/-- Trailing part of handler `parse_object_item`, after the recursive value
parse: restore the wrapper flags and the reflection table, bump the object
index, pop the key; then, unless the popped path still matches the message
pattern, close the wrapper and dispatch when emitting (a failed dispatch
sets the sticky error flag) and stop emitting. -/
def parse_object_item_post (env : Env) (saved : Saved) (s : State) : State :=
  let s := { s with needs_close_array := saved.nca, needs_close_object := saved.nco,
                    reflection_table := saved.rt,
                    object_idx := s.object_idx + 1,
                    current_path := s.current_path.dropLast }
  if is_a_subpath s.current_path s.root_path then s
  else
    let s :=
      if s.emit_json then
        let s := if saved.keyed = false then { s with ss := s.ss ++ "\x7d" } else s
        let r := process_item env s
        if r.1 = false then { r.2 with is_parse_error := true } else r.2
      else s
    { s with emit_json := false }

/-- Bookkeeping part of handler `parse_object_stop`: clear the current key,
decrement the depth, reset the object index. -/
def parse_object_stop_pre (s : State) : State :=
  { s with current_key := "", object_depth := s.object_depth - 1, object_idx := -1 }

/-- Emission part of handler `parse_object_stop`: a pending array wrapper is
closed with one bracket; a pending object wrapper with one closing brace
plus a second one when the message pattern is non-empty; otherwise a single
closing brace is emitted. -/
def parse_object_stop_emit (s : State) : State :=
  if s.needs_close_array then
    { s with ss := s.ss ++ "]", needs_close_array := false }
  else if s.needs_close_object then
    { s with ss := s.ss ++ (if !s.root_path.isEmpty then "\x7d\x7d" else "\x7d"),
             needs_close_object := false }
  else { s with ss := s.ss ++ "\x7d" }

/-- Handler `parse_object_stop`: bookkeeping, then, when emitting, the
emission part followed by a dispatch at depth zero whose result is
discarded. -/
def parse_object_stop (env : Env) (s : State) : State :=
  let s1 := parse_object_stop_pre s
  if s1.emit_json then
    let s2 := parse_object_stop_emit s1
    if s2.object_depth = 0 then (process_item env s2).2 else s2
  else s1

/-! JSON documents as delivered by the picojson tokenizer, with separate
integer and floating numeric events. -/
mutual
inductive Json where
  | null : Json
  | boolVal : Bool → Json
  | intVal : Int → Json
  | numVal : Rat → Json
  | strVal : String → Json
  | arr : JsonList → Json
  | obj : JsonObjList → Json
inductive JsonList where
  | nil : JsonList
  | cons : Json → JsonList → JsonList
inductive JsonObjList where
  | nil : JsonObjList
  | cons : String → Json → JsonObjList → JsonObjList
end

/-! Traversal of a document by the tokenizer driving the handler, returning
the list of handler states observed (one entry per handler step, in order)
together with the final state. `runList` and `runObj` traverse array items
and object members respectively. -/
mutual
def runValue (env : Env) : Json → State → List State × State
  | Json.null, s => let s1 := set_null s; ([s1], s1)
  | Json.boolVal b, s => let s1 := set_bool b s; ([s1], s1)
  | Json.intVal i, s => let s1 := set_int64 i s; ([s1], s1)
  | Json.numVal q, s => let s1 := set_number q s; ([s1], s1)
  | Json.strVal str, s => let s1 := parse_string str s; ([s1], s1)
  | Json.arr l, s =>
    let s1 := parse_array_start s
    let r := runList env l s1
    let s3 := parse_array_stop r.2
    (s1 :: r.1 ++ [s3], s3)
  | Json.obj l, s =>
    let s1 := parse_object_start s
    let r := runObj env l s1
    let s3 := parse_object_stop env r.2
    (s1 :: r.1 ++ [s3], s3)
def runList (env : Env) : JsonList → State → List State × State
  | JsonList.nil, s => ([], s)
  | JsonList.cons v rest, s =>
    let s1 := parse_array_item_pre s
    let rv := runValue env v s1
    let rr := runList env rest rv.2
    (s1 :: rv.1 ++ rr.1, rr.2)
def runObj (env : Env) : JsonObjList → State → List State × State
  | JsonObjList.nil, s => ([], s)
  | JsonObjList.cons k v rest, s =>
    let p := parse_object_item_pre k s
    let rv := runValue env v p.1
    let s3 := parse_object_item_post env p.2 rv.2
    let rr := runObj env rest s3
    (p.1 :: rv.1 ++ s3 :: rr.1, rr.2)
end

/-- State installed at the start of `parse_stream`: clear the mutable state,
then set the per-call patterns. -/
def parse_stream_init (rp ep : List String) (s : State) : State :=
  { clear s with root_path := rp, error_path := ep }

/-- Entry point `parse_stream` on a well-formed document (for which the
tokenizer reports an empty error string): clear, install the patterns, run
the tokenizer traversal; the result is success iff the sticky parse-error
flag was never set. -/
def parse_stream (env : Env) (doc : Json) (rp ep : List String) (s : State) :
    Bool × State :=
  let s0 := parse_stream_init rp ep s
  let r := runValue env doc s0
  (!r.2.is_parse_error, r.2)

/-- Relation between two states that agree on the structural fields the
tokenizer traversal restores: depth counters, current path, patterns,
parser readiness, schema and reflection table. -/
def SameShape (s t : State) : Prop :=
  s.object_depth = t.object_depth ∧
  s.array_depth = t.array_depth ∧
  s.current_path = t.current_path ∧
  s.root_path = t.root_path ∧
  s.error_path = t.error_path ∧
  s.flatbuffers_parser_ready = t.flatbuffers_parser_ready ∧
  s.schema = t.schema ∧
  s.reflection_table = t.reflection_table

/-- Depth and path invariant of the state machine: non-negative depth
counters and at most one path segment per open object level. -/
def INV (s : State) : Prop :=
  0 ≤ s.object_depth ∧ 0 ≤ s.array_depth ∧
  (s.current_path.length : Int) ≤ s.object_depth

/-- Condition under which the keyed-table rewrite applies, extracted from
the observable behaviour of `check_for_keyed_vector_table`: the current
descriptor is present, its field vector is present and holds both a field
named "id" and a field named "val", the "val" field is object-typed, and
its object descriptor resolves in the schema. -/
def keyed_rewrite_condition (sc : Option ReflSchema) (rt : Option ReflObject) :
    Bool :=
  match rt with
  | none => false
  | some t =>
    match t.fields with
    | none => false
    | some fs =>
      (fieldsLookupByKey fs "id").isSome &&
      (match fieldsLookupByKey fs "val" with
       | some vf =>
         (vf.base_type == BaseType.Obj) && (schemaObjectsGet sc vf.index).isSome
       | none => false)

/-- Environment in which every external collaborator succeeds. -/
def envAllTrue : Env :=
  ⟨true, true, fun _ => true, fun _ => true, fun _ => true,
   fun _ => true, fun _ => true⟩

/-- Environment in which every external collaborator fails. -/
def envAllFalse : Env :=
  ⟨false, false, fun _ => false, fun _ => false, fun _ => false,
   fun _ => false, fun _ => false⟩

/-- Document holding the single member "a" with integer value 1. -/
def docA : Json := Json.obj (JsonObjList.cons "a" (Json.intVal 1) JsonObjList.nil)

/-- Concrete mid-parse state: message pattern ["x"], error pattern ["a"],
current path ["a", "b"], capturing active. -/
def sC2 : State :=
  { initState with root_path := ["x"], error_path := ["a"],
                   current_path := ["a", "b"], emit_json := true }

/-- State reaching `parse_object_stop` during the run of `docA` with empty
patterns on an engine whose schema never loaded. -/
def sC3stop : State :=
  (runObj envAllTrue (JsonObjList.cons "a" (Json.intVal 1) JsonObjList.nil)
    (parse_object_start (parse_stream_init [] [] initState))).2

/-- Reflection object with an empty field vector, target of index 0. -/
def objInner : ReflObject := ⟨some []⟩

/-- Schema holding a single object, which is also the root. -/
def scC4 : ReflSchema := ⟨[objInner], 0⟩

/-- Table whose two fields are named "identifier" and "value", with "value"
object-typed and resolving to index 0. -/
def tIdentifierValue : ReflObject :=
  ⟨some [⟨"identifier", BaseType.Other, 0, BaseType.Other⟩,
         ⟨"value", BaseType.Obj, 0, BaseType.Other⟩]⟩

/-- Table whose two fields are named "id" and "val", with "val" object-typed
and resolving to index 0. -/
def tIdVal : ReflObject :=
  ⟨some [⟨"id", BaseType.Other, 0, BaseType.Other⟩,
         ⟨"val", BaseType.Obj, 0, BaseType.Other⟩]⟩

/-- Fresh state with capturing active. -/
def sEmit : State := { initState with emit_json := true }

/-- Capturing state inside an array wrapper at depth two. -/
def sC10 : State :=
  { initState with emit_json := true, needs_close_array := true,
                   object_depth := 2, ss := "[x" }

/-- First state of the trace of `docA` from a freshly initialised engine:
the state right after `parse_object_start`. -/
def c7t : State := parse_object_start (parse_stream_init [] [] initState)

/-- Ready state whose pending dispatch is tagged as an error-path dispatch. -/
def sC5 : State :=
  { initState with flatbuffers_parser_ready := true, is_error_path := true }

/-- Helper: a state equals itself on all structural fields. -/
theorem sameShape_refl (s : State) : SameShape s s := by
  unfold SameShape; exact ⟨rfl, rfl, rfl, rfl, rfl, rfl, rfl, rfl⟩

/-- Helper: transitivity of the structural-field relation. -/
theorem sameShape_trans {s t u : State} (h1 : SameShape s t)
    (h2 : SameShape t u) : SameShape s u := by
  obtain ⟨a1, a2, a3, a4, a5, a6, a7, a8⟩ := h1
  obtain ⟨b1, b2, b3, b4, b5, b6, b7, b8⟩ := h2
  exact ⟨a1.trans b1, a2.trans b2, a3.trans b3, a4.trans b4,
         a5.trans b5, a6.trans b6, a7.trans b7, a8.trans b8⟩

/-- Helper: the depth/path invariant transfers along structural equality. -/
theorem INV_of_sameShape {s t : State} (h : SameShape s t) (ht : INV t) :
    INV s := by
  obtain ⟨h1, h2, h3, _⟩ := h
  unfold INV at *
  rw [h1, h2, h3]
  exact ht

/-- Helper: `set_null` touches only the output stream. -/
theorem sameShape_set_null (s : State) : SameShape (set_null s) s := by
  unfold set_null SameShape; split <;> simp

/-- Helper: `set_bool` touches only the output stream. -/
theorem sameShape_set_bool (b : Bool) (s : State) :
    SameShape (set_bool b s) s := by
  unfold set_bool SameShape; split <;> simp

/-- Helper: `set_int64` touches only the output stream. -/
theorem sameShape_set_int64 (i : Int) (s : State) :
    SameShape (set_int64 i s) s := by
  unfold set_int64 SameShape; split <;> simp

/-- Helper: `set_number` touches only the output stream. -/
theorem sameShape_set_number (q : Rat) (s : State) :
    SameShape (set_number q s) s := by
  unfold set_number SameShape; split <;> simp

/-- Helper: `parse_string` touches only the output stream. -/
theorem sameShape_parse_string (str : String) (s : State) :
    SameShape (parse_string str s) s := by
  unfold parse_string SameShape; split <;> simp

/-- Helper: the leading part of `parse_array_item` touches only the output
stream and the array index. -/
theorem sameShape_parse_array_item_pre (s : State) :
    SameShape (parse_array_item_pre s) s := by
  unfold parse_array_item_pre SameShape; dsimp only; split <;> simp

/-- Helper: structural effect of `parse_array_start`. -/
theorem parse_array_start_fields (s : State) :
    (parse_array_start s).object_depth = s.object_depth ∧
    (parse_array_start s).array_depth = s.array_depth + 1 ∧
    (parse_array_start s).current_path = s.current_path ∧
    (parse_array_start s).root_path = s.root_path ∧
    (parse_array_start s).error_path = s.error_path ∧
    (parse_array_start s).flatbuffers_parser_ready = s.flatbuffers_parser_ready ∧
    (parse_array_start s).schema = s.schema ∧
    (parse_array_start s).reflection_table = s.reflection_table := by
  unfold parse_array_start; dsimp only; split <;> simp

/-- Helper: structural effect of `parse_array_stop`. -/
theorem parse_array_stop_fields (s : State) :
    (parse_array_stop s).object_depth = s.object_depth ∧
    (parse_array_stop s).array_depth = s.array_depth - 1 ∧
    (parse_array_stop s).current_path = s.current_path ∧
    (parse_array_stop s).root_path = s.root_path ∧
    (parse_array_stop s).error_path = s.error_path ∧
    (parse_array_stop s).flatbuffers_parser_ready = s.flatbuffers_parser_ready ∧
    (parse_array_stop s).schema = s.schema ∧
    (parse_array_stop s).reflection_table = s.reflection_table := by
  unfold parse_array_stop; dsimp only; split <;> simp

/-- Helper: structural effect of `parse_object_start`. -/
theorem parse_object_start_fields (s : State) :
    (parse_object_start s).object_depth = s.object_depth + 1 ∧
    (parse_object_start s).array_depth = s.array_depth ∧
    (parse_object_start s).current_path = s.current_path ∧
    (parse_object_start s).root_path = s.root_path ∧
    (parse_object_start s).error_path = s.error_path ∧
    (parse_object_start s).flatbuffers_parser_ready = s.flatbuffers_parser_ready ∧
    (parse_object_start s).schema = s.schema ∧
    (parse_object_start s).reflection_table = s.reflection_table := by
  unfold parse_object_start; dsimp only; simp

/-- Helper: the emission block of `parse_object_item` touches only the
output stream and the wrapper flags. -/
theorem parse_object_item_emit_fields (k e : Bool) (key : String) (s : State) :
    (parse_object_item_emit k e key s).object_depth = s.object_depth ∧
    (parse_object_item_emit k e key s).array_depth = s.array_depth ∧
    (parse_object_item_emit k e key s).current_path = s.current_path ∧
    (parse_object_item_emit k e key s).root_path = s.root_path ∧
    (parse_object_item_emit k e key s).error_path = s.error_path ∧
    (parse_object_item_emit k e key s).flatbuffers_parser_ready = s.flatbuffers_parser_ready ∧
    (parse_object_item_emit k e key s).schema = s.schema ∧
    (parse_object_item_emit k e key s).reflection_table = s.reflection_table ∧
    (parse_object_item_emit k e key s).is_error_path = s.is_error_path ∧
    (parse_object_item_emit k e key s).emit_json = s.emit_json ∧
    (parse_object_item_emit k e key s).is_parse_error = s.is_parse_error ∧
    (parse_object_item_emit k e key s).current_key = s.current_key ∧
    (parse_object_item_emit k e key s).object_idx = s.object_idx ∧
    (parse_object_item_emit k e key s).array_idx = s.array_idx := by
  unfold parse_object_item_emit
  dsimp only
  repeat' split
  all_goals simp

/-- Helper: structural effect of the leading part of `parse_object_item`:
the key is pushed, the error flag is re-evaluated against the error pattern,
and the previous reflection table is saved. -/
theorem parse_object_item_pre_fields (key : String) (s : State) :
    (parse_object_item_pre key s).1.object_depth = s.object_depth ∧
    (parse_object_item_pre key s).1.array_depth = s.array_depth ∧
    (parse_object_item_pre key s).1.current_path = s.current_path ++ [key] ∧
    (parse_object_item_pre key s).1.root_path = s.root_path ∧
    (parse_object_item_pre key s).1.error_path = s.error_path ∧
    (parse_object_item_pre key s).1.flatbuffers_parser_ready = s.flatbuffers_parser_ready ∧
    (parse_object_item_pre key s).1.schema = s.schema ∧
    (parse_object_item_pre key s).2.rt = s.reflection_table ∧
    (parse_object_item_pre key s).1.is_error_path =
      is_a_subpath (s.current_path ++ [key]) s.error_path ∧
    (parse_object_item_pre key s).1.is_parse_error = s.is_parse_error := by
  unfold parse_object_item_pre
  obtain ⟨h1, h2, h3, h4, h5, h6, h7, h8, h9, h10, h11, h12, h13, h14⟩ :=
    parse_object_item_emit_fields
      (check_for_keyed_vector_table s.schema key s.reflection_table).1
      s.emit_json key
      { s with
        reflection_table := (check_for_keyed_vector_table s.schema key s.reflection_table).2,
        current_key := key,
        current_path := s.current_path ++ [key],
        is_error_path := is_a_subpath (s.current_path ++ [key]) s.error_path,
        emit_json := is_a_subpath (s.current_path ++ [key]) s.error_path ||
          is_a_subpath (s.current_path ++ [key]) s.root_path }
  simp_all

/-- Helper: structural effect of the trailing part of `parse_object_item`:
the key is popped, the reflection table is restored from the saved locals,
and the depth counters are untouched. -/
theorem parse_object_item_post_fields (env : Env) (saved : Saved) (s : State) :
    (parse_object_item_post env saved s).object_depth = s.object_depth ∧
    (parse_object_item_post env saved s).array_depth = s.array_depth ∧
    (parse_object_item_post env saved s).current_path = s.current_path.dropLast ∧
    (parse_object_item_post env saved s).root_path = s.root_path ∧
    (parse_object_item_post env saved s).error_path = s.error_path ∧
    (parse_object_item_post env saved s).flatbuffers_parser_ready = s.flatbuffers_parser_ready ∧
    (parse_object_item_post env saved s).schema = s.schema ∧
    (parse_object_item_post env saved s).reflection_table = saved.rt := by
  unfold parse_object_item_post process_item
  dsimp only
  repeat' split
  all_goals simp

/-- Helper: structural effect of `parse_object_stop`: the depth drops by
one; the path, array depth, patterns, readiness and reflection state are
untouched. -/
theorem parse_object_stop_fields (env : Env) (s : State) :
    (parse_object_stop env s).object_depth = s.object_depth - 1 ∧
    (parse_object_stop env s).array_depth = s.array_depth ∧
    (parse_object_stop env s).current_path = s.current_path ∧
    (parse_object_stop env s).root_path = s.root_path ∧
    (parse_object_stop env s).error_path = s.error_path ∧
    (parse_object_stop env s).flatbuffers_parser_ready = s.flatbuffers_parser_ready ∧
    (parse_object_stop env s).schema = s.schema ∧
    (parse_object_stop env s).reflection_table = s.reflection_table := by
  unfold parse_object_stop parse_object_stop_pre parse_object_stop_emit process_item
  dsimp only
  repeat' split
  all_goals simp

/-- Helper: characterisation of `std::equal` over the pattern range. -/
theorem equalBy_iff (p : String → String → Bool) :
    ∀ (q r : List String), equalBy p q r = true ↔
      (q.length ≤ r.length ∧
       ∀ i, i < q.length → p (q.getD i "") (r.getD i "") = true)
  | [], r => by simp [equalBy]
  | a :: as, [] => by simp [equalBy]
  | a :: as, b :: bs => by
    simp only [equalBy, Bool.and_eq_true, equalBy_iff p as bs, List.length_cons]
    constructor
    · rintro ⟨h1, h2, h3⟩
      refine ⟨by omega, ?_⟩
      intro i hi
      cases i with
      | zero => simpa using h1
      | succ n => simpa using h3 n (by omega)
    · rintro ⟨h1, h2⟩
      refine ⟨by simpa using h2 0 (by omega), by omega, ?_⟩
      intro i hi
      simpa using h2 (i + 1) (by omega)

/-- Helper: a pattern segment passes `equality_or_wildcard` iff it is the
wildcard marker or equals the concrete segment. -/
theorem equality_or_wildcard_iff (a b : String) :
    equality_or_wildcard a b = true ↔ (a = "*" ∨ a = b) := by
  simp [equality_or_wildcard, wildcard_sym]

/-- C1: `is_a_subpath(P, Q)` is true iff `Q` is empty, or `P` is at least as
long as `Q` and every segment of `Q` is the wildcard marker or equals the
same-index segment of `P`; in particular an empty `Q` matches every `P`. -/
theorem C1_is_a_subpath_semantics (P Q : List String) :
    (is_a_subpath P Q = true ↔
      (Q = [] ∨ (Q.length ≤ P.length ∧
        ∀ i, i < Q.length → (Q.getD i "" = "*" ∨ Q.getD i "" = P.getD i "")))) ∧
    is_a_subpath P [] = true := by
  constructor
  · unfold is_a_subpath
    simp only [Bool.or_eq_true, Bool.and_eq_true, decide_eq_true_eq,
      List.isEmpty_iff, equalBy_iff, equality_or_wildcard_iff]
    tauto
  · rfl

/-- Witness for C1 at a concrete path and pattern. -/
theorem C1_witness : is_a_subpath ["alpha", "beta"] [] = true :=
  (C1_is_a_subpath_semantics ["alpha", "beta"] ["alpha"]).2

/-- C2 (amended): after an object key is popped, capturing ends with a
dispatch exactly when the popped path no longer matches the MESSAGE
pattern (the error pattern is not consulted at exit): when the popped path
still matches the message pattern the handler only restores the saved
locals, pops the key and bumps the index; otherwise emitting stops, and if
capturing was active the wrapper is closed (for a non-keyed item), the text
is dispatched, the buffer is reset, and a failed dispatch sets the sticky
error flag. -/
theorem C2_exit_object_key (env : Env) (saved : Saved) (s : State) :
    (is_a_subpath s.current_path.dropLast s.root_path = true →
      parse_object_item_post env saved s =
        { s with needs_close_array := saved.nca, needs_close_object := saved.nco,
                 reflection_table := saved.rt, object_idx := s.object_idx + 1,
                 current_path := s.current_path.dropLast }) ∧
    (is_a_subpath s.current_path.dropLast s.root_path = false →
      (parse_object_item_post env saved s).emit_json = false ∧
      (s.emit_json = true →
        (parse_object_item_post env saved s).ss = "" ∧
        (parse_object_item_post env saved s).is_parse_error =
          (s.is_parse_error ||
            !(convert_json_stream_to_flatbuffer env
               { s with needs_close_array := saved.nca,
                        needs_close_object := saved.nco,
                        reflection_table := saved.rt,
                        object_idx := s.object_idx + 1,
                        current_path := s.current_path.dropLast,
                        ss := if saved.keyed then s.ss else s.ss ++ "\x7d" }).1))) := by
  constructor
  · intro hm
    unfold parse_object_item_post
    dsimp only
    rw [if_pos hm]
  · intro hm
    refine ⟨?_, ?_⟩
    · unfold parse_object_item_post process_item
      dsimp only
      rw [if_neg (by simp [hm])]
    · intro hme
      unfold parse_object_item_post process_item
      dsimp only
      rw [if_neg (by simp [hm])]
      rw [if_pos hme]
      cases hk : saved.keyed with
      | false =>
        simp only [hk, eq_self_iff_true, Bool.false_eq_true, Bool.true_eq_false,
          ite_true, ite_false]
        constructor
        · split
          · rfl
          · rfl
        · split
          · next hok => simp_all
          · next hok => simp_all
      | true =>
        simp only [hk, eq_self_iff_true, Bool.false_eq_true, Bool.true_eq_false,
          ite_true, ite_false]
        constructor
        · split
          · rfl
          · rfl
        · split
          · next hok => simp_all
          · next hok => simp_all

/-- Counterexample to C2 as stated: with message pattern ["x"] and error
pattern ["a"], popping key "b" from path ["a", "b"] leaves a path that
still matches the ERROR pattern, yet the handler dispatches (here failing,
setting the sticky flag) and stops capturing. -/
theorem C2_counterexample :
    is_a_subpath (sC2.current_path.dropLast) sC2.error_path = true ∧
    sC2.emit_json = true ∧
    (parse_object_item_post envAllTrue ⟨none, false, false, false⟩ sC2).emit_json = false ∧
    (parse_object_item_post envAllTrue ⟨none, false, false, false⟩ sC2).is_parse_error = true := by
  decide

/-- Witness for C2 (amended) at a concrete capturing state. -/
theorem C2_witness :
    (parse_object_item_post envAllTrue ⟨none, false, false, false⟩ sC2).emit_json = false :=
  ((C2_exit_object_key envAllTrue ⟨none, false, false, false⟩ sC2).2 (by decide)).1

/-- C5: each dispatch invokes at most one sink, the error sink exactly when
the error-path flag is set; and at each object-key boundary the flag is the
result of matching the pushed path against the error pattern (evaluated
before the message pattern), so when both patterns match, the dispatch kind
is error. -/
theorem C5_dispatch_exclusive (env : Env) (s : State) (key : String) :
    (convert_json_stream_to_flatbuffer env s).2.length ≤ 1 ∧
    (SinkKind.error ∈ (convert_json_stream_to_flatbuffer env s).2 →
      s.is_error_path = true) ∧
    (SinkKind.message ∈ (convert_json_stream_to_flatbuffer env s).2 →
      s.is_error_path = false) ∧
    (parse_object_item_pre key s).1.is_error_path =
      is_a_subpath (s.current_path ++ [key]) s.error_path := by
  refine ⟨?_, ?_, ?_, ?_⟩
  · unfold convert_json_stream_to_flatbuffer
    repeat' split
    all_goals simp
  · unfold convert_json_stream_to_flatbuffer
    repeat' split
    all_goals simp_all
  · unfold convert_json_stream_to_flatbuffer
    repeat' split
    all_goals simp_all
  · exact (parse_object_item_pre_fields key s).2.2.2.2.2.2.2.2.1

/-- Witness for C5: a concrete dispatch that reaches the error sink has the
error-path flag set. -/
theorem C5_witness : sC5.is_error_path = true :=
  (C5_dispatch_exclusive envAllTrue sC5 "k").2.1 (by decide)

/-- C8: while capturing, a floating numeric value is appended as its
integer part truncated toward zero (3.9 is emitted as 3), and an integer
value is appended unchanged. -/
theorem C8_numeric_truncation (q : Rat) (i : Int) (s : State)
    (h : s.emit_json = true) :
    (set_number q s).ss = s.ss ++ toString (cIntCast q) ∧
    cIntCast (39 / 10 : Rat) = 3 ∧
    (set_int64 i s).ss = s.ss ++ toString i := by
  refine ⟨?_, ?_, ?_⟩
  · unfold set_number
    rw [if_pos h]
  · unfold cIntCast
    rw [if_pos (by norm_num)]
    rw [Int.floor_eq_iff]
    norm_num
  · unfold set_int64
    rw [if_pos h]

/-- Witness for C8 at the concrete value 3.9 in a capturing state. -/
theorem C8_witness :
    (set_number (39 / 10 : Rat) sEmit).ss =
      sEmit.ss ++ toString (cIntCast (39 / 10 : Rat)) ∧
    cIntCast (39 / 10 : Rat) = 3 ∧
    (set_int64 5 sEmit).ss = sEmit.ss ++ toString (5 : Int) :=
  C8_numeric_truncation (39 / 10) 5 sEmit rfl

/-- C9: `clear` resets every mutable parsing and output field to its
initial value, leaves the loaded schema and the parser-ready flag
unchanged, is idempotent, is the identity on a freshly constructed engine,
and `parse_stream` behaves identically on a cleared and an uncleared
engine because it clears first, before installing the per-call patterns. -/
theorem C9_clear_semantics (s : State) (env : Env) (doc : Json)
    (rp ep : List String) (tOk bOk : Bool) (gs : Option ReflSchema)
    (tb bb : List Nat) :
    clear (clear s) = clear s ∧
    (clear s).flatbuffers_parser_ready = s.flatbuffers_parser_ready ∧
    (clear s).schema = s.schema ∧
    (clear s).is_parse_error = false ∧
    (clear s).is_error_path = false ∧
    (clear s).object_depth = 0 ∧
    (clear s).array_depth = 0 ∧
    (clear s).object_idx = 0 ∧
    (clear s).array_idx = 0 ∧
    (clear s).current_path = [] ∧
    (clear s).current_key = "" ∧
    (clear s).ss = "" ∧
    (clear s).emit_json = false ∧
    (clear s).needs_close_array = false ∧
    (clear s).needs_close_object = false ∧
    clear (FlatbuffersStreamingParser_mk tOk bOk gs tb bb) =
      FlatbuffersStreamingParser_mk tOk bOk gs tb bb ∧
    parse_stream env doc rp ep (clear s) = parse_stream env doc rp ep s := by
  refine ⟨rfl, rfl, rfl, rfl, rfl, rfl, rfl, rfl, rfl, rfl, rfl, rfl, rfl, rfl,
    rfl, ?_, ?_⟩
  · unfold FlatbuffersStreamingParser_mk
    dsimp only
    repeat' split
    all_goals rfl
  · rfl

/-- C10: when a captured object closes at exit-object while capturing, a
pending array wrapper is closed with exactly one bracket (and no brace); a
pending object wrapper with exactly one closing brace when the message
pattern is empty and exactly two when it is non-empty; with no pending
wrapper a single closing brace is appended. The depth hypothesis keeps the
exit away from the depth-zero dispatch, which afterwards resets the
buffer. -/
theorem C10_close_wrappers (env : Env) (s : State) (h : s.emit_json = true)
    (hd : s.object_depth ≠ 1) :
    (s.needs_close_array = true →
      (parse_object_stop env s).ss = s.ss ++ "]") ∧
    (s.needs_close_array = false → s.needs_close_object = true →
      (parse_object_stop env s).ss =
        s.ss ++ (if s.root_path.isEmpty then "\x7d" else "\x7d\x7d")) ∧
    (s.needs_close_array = false → s.needs_close_object = false →
      (parse_object_stop env s).ss = s.ss ++ "\x7d") := by
  unfold parse_object_stop parse_object_stop_pre parse_object_stop_emit
  dsimp only
  rw [if_pos h]
  refine ⟨?_, ?_, ?_⟩
  · intro hnca
    simp only [hnca, eq_self_iff_true, ite_true]
    rw [if_neg (by omega : ¬((s.object_depth - 1 : Int) = 0))]
  · intro hnca hnco
    simp only [hnca, hnco, Bool.false_eq_true, ite_false, eq_self_iff_true,
      ite_true]
    rw [if_neg (by omega : ¬((s.object_depth - 1 : Int) = 0))]
    cases hrp : s.root_path.isEmpty <;> simp [hrp]
  · intro hnca hnco
    simp only [hnca, hnco, Bool.false_eq_true, ite_false]
    rw [if_neg (by omega : ¬((s.object_depth - 1 : Int) = 0))]

/-- Witness for C10 with a pending array wrapper at depth two. -/
theorem C10_witness : (parse_object_stop envAllTrue sC10).ss = sC10.ss ++ "]" :=
  (C10_close_wrappers envAllTrue sC10 rfl (by decide)).1 rfl

/-- Helper: structural effect of one full object member (leading part,
value traversal, trailing part), given that the value traversal preserves
the structural fields. -/
theorem sameShape_obj_item (env : Env) (k : String) (v : Json) (s : State)
    (hv : SameShape (runValue env v (parse_object_item_pre k s).1).2
      (parse_object_item_pre k s).1) :
    SameShape
      (parse_object_item_post env (parse_object_item_pre k s).2
        (runValue env v (parse_object_item_pre k s).1).2) s := by
  obtain ⟨p1, p2, p3, p4, p5, p6, p7, p8, _, _⟩ := parse_object_item_pre_fields k s
  obtain ⟨v1, v2, v3, v4, v5, v6, v7, v8⟩ := hv
  obtain ⟨q1, q2, q3, q4, q5, q6, q7, q8⟩ :=
    parse_object_item_post_fields env (parse_object_item_pre k s).2
      (runValue env v (parse_object_item_pre k s).1).2
  refine ⟨?_, ?_, ?_, ?_, ?_, ?_, ?_, ?_⟩
  · rw [q1, v1, p1]
  · rw [q2, v2, p2]
  · rw [q3, v3, p3]; simp
  · rw [q4, v4, p4]
  · rw [q5, v5, p5]
  · rw [q6, v6, p6]
  · rw [q7, v7, p7]
  · rw [q8, p8]

/-! Mutual proof that the traversal of a value, an item list or a member
list restores all structural fields. -/
mutual
theorem sameShape_runValue (env : Env) (v : Json) (s : State) :
    SameShape (runValue env v s).2 s :=
  match v with
  | Json.null => sameShape_set_null s
  | Json.boolVal b => sameShape_set_bool b s
  | Json.intVal i => sameShape_set_int64 i s
  | Json.numVal q => sameShape_set_number q s
  | Json.strVal str => sameShape_parse_string str s
  | Json.arr l => by
    show SameShape (parse_array_stop (runList env l (parse_array_start s)).2) s
    obtain ⟨a1, a2, a3, a4, a5, a6, a7, a8⟩ := parse_array_start_fields s
    obtain ⟨l1, l2, l3, l4, l5, l6, l7, l8⟩ :=
      sameShape_runList env l (parse_array_start s)
    obtain ⟨t1, t2, t3, t4, t5, t6, t7, t8⟩ :=
      parse_array_stop_fields (runList env l (parse_array_start s)).2
    refine ⟨?_, ?_, ?_, ?_, ?_, ?_, ?_, ?_⟩
    · rw [t1, l1, a1]
    · rw [t2, l2, a2]; omega
    · rw [t3, l3, a3]
    · rw [t4, l4, a4]
    · rw [t5, l5, a5]
    · rw [t6, l6, a6]
    · rw [t7, l7, a7]
    · rw [t8, l8, a8]
  | Json.obj l => by
    show SameShape (parse_object_stop env (runObj env l (parse_object_start s)).2) s
    obtain ⟨a1, a2, a3, a4, a5, a6, a7, a8⟩ := parse_object_start_fields s
    obtain ⟨l1, l2, l3, l4, l5, l6, l7, l8⟩ :=
      sameShape_runObj env l (parse_object_start s)
    obtain ⟨t1, t2, t3, t4, t5, t6, t7, t8⟩ :=
      parse_object_stop_fields env (runObj env l (parse_object_start s)).2
    refine ⟨?_, ?_, ?_, ?_, ?_, ?_, ?_, ?_⟩
    · rw [t1, l1, a1]; omega
    · rw [t2, l2, a2]
    · rw [t3, l3, a3]
    · rw [t4, l4, a4]
    · rw [t5, l5, a5]
    · rw [t6, l6, a6]
    · rw [t7, l7, a7]
    · rw [t8, l8, a8]

theorem sameShape_runList (env : Env) (l : JsonList) (s : State) :
    SameShape (runList env l s).2 s :=
  match l with
  | JsonList.nil => sameShape_refl s
  | JsonList.cons v rest => by
    show SameShape
      (runList env rest (runValue env v (parse_array_item_pre s)).2).2 s
    exact sameShape_trans
      (sameShape_runList env rest (runValue env v (parse_array_item_pre s)).2)
      (sameShape_trans (sameShape_runValue env v (parse_array_item_pre s))
        (sameShape_parse_array_item_pre s))

theorem sameShape_runObj (env : Env) (l : JsonObjList) (s : State) :
    SameShape (runObj env l s).2 s :=
  match l with
  | JsonObjList.nil => sameShape_refl s
  | JsonObjList.cons k v rest => by
    show SameShape
      (runObj env rest
        (parse_object_item_post env (parse_object_item_pre k s).2
          (runValue env v (parse_object_item_pre k s).1).2)).2 s
    exact sameShape_trans
      (sameShape_runObj env rest
        (parse_object_item_post env (parse_object_item_pre k s).2
          (runValue env v (parse_object_item_pre k s).1).2))
      (sameShape_obj_item env k v s
        (sameShape_runValue env v (parse_object_item_pre k s).1))
end

/-- C3 (code bug evaluation): on the document holding the single member
"a": 1 with empty patterns and a never-loaded schema, the depth-zero
dispatch at the closing brace takes place (the handler is emitting and the
depth returns to zero) and fails, yet `parse_object_stop` discards its
result: the sticky flag stays clear and `parse_stream` reports success,
contradicting the claim that every failed dispatch sets the flag and fails
the call. -/
theorem C3_stop_dispatch_bug :
    (parse_stream envAllTrue docA [] [] initState).1 = true ∧
    (parse_stream envAllTrue docA [] [] initState).2.is_parse_error = false ∧
    (parse_object_stop_pre sC3stop).emit_json = true ∧
    (parse_object_stop_emit (parse_object_stop_pre sC3stop)).object_depth = 0 ∧
    (process_item envAllTrue
      (parse_object_stop_emit (parse_object_stop_pre sC3stop))).1 = false := by
  decide

/-- C4 (amended): the keyed-table rewrite applies exactly when the current
descriptor holds both a field named "id" and a field named "val", the "val"
field is object-typed, and its descriptor resolves in the schema; when it
applies while capturing was already active, the element is written inside
an array wrapper (opened or continued) as a tagged
element of the form given by the "id"/"val" header. -/
theorem C4_keyed_rewrite (sc : Option ReflSchema) (key : String)
    (rt : Option ReflObject) (s : State) :
    (check_for_keyed_vector_table sc key rt).1 = keyed_rewrite_condition sc rt ∧
    (s.emit_json = true →
      (parse_object_item_emit true true key s).ss =
        s.ss ++ (if s.needs_close_array then "," else "[") ++
          "\x7b\"id\":\"" ++ key ++ "\",\"val\":") := by
  constructor
  · unfold check_for_keyed_vector_table keyed_rewrite_condition
    repeat' split
    all_goals simp_all [Option.isSome_iff_exists]
  · intro hme
    unfold parse_object_item_emit
    dsimp only
    rw [if_pos hme]
    simp only [Bool.not_true, Bool.false_eq_true, ite_false, eq_self_iff_true,
      ite_true]
    cases hnca : s.needs_close_array <;> simp [hnca]

/-- Counterexample to C4 as stated: a table whose fields are named
"identifier" and "value" (with "value" object-typed and resolvable) is NOT
rewritten, while a table whose fields are named "id" and "val" IS: the code
keys the rewrite on the field names "id" and "val", not "identifier" and
"value". -/
theorem C4_counterexample :
    tIdentifierValue.fields =
      some [⟨"identifier", BaseType.Other, 0, BaseType.Other⟩,
            ⟨"value", BaseType.Obj, 0, BaseType.Other⟩] ∧
    schemaObjectsGet (some scC4) 0 = some objInner ∧
    (check_for_keyed_vector_table (some scC4) "k" (some tIdentifierValue)).1 = false ∧
    (check_for_keyed_vector_table (some scC4) "k" (some tIdVal)).1 = true := by
  decide

/-- Witness for C4 (amended) on the "id"/"val" table in a capturing state. -/
theorem C4_witness :
    (check_for_keyed_vector_table (some scC4) "k" (some tIdVal)).1 =
      keyed_rewrite_condition (some scC4) (some tIdVal) ∧
    (parse_object_item_emit true true "k" sEmit).ss =
      sEmit.ss ++ (if sEmit.needs_close_array then "," else "[") ++
        "\x7b\"id\":\"" ++ "k" ++ "\",\"val\":" := by
  have h := C4_keyed_rewrite (some scC4) "k" (some tIdVal) sEmit
  exact ⟨h.1, h.2 rfl⟩

/-- C6 (amended): when the TEXT schema fails to load (empty buffer, missing
null terminator, or parse failure), the engine is permanently non-ready:
the constructor leaves the ready flag false, every dispatch with a
non-ready engine skips the encode stage and fails without invoking any sink
(for every environment), and neither document traversal nor `clear` ever
changes the ready flag. -/
theorem C6_schema_failure (textParseOk verifyOk : Bool)
    (gs : Option ReflSchema) (tbuf bbuf : List Nat)
    (h : parse_flatbuffers_text_schema textParseOk tbuf = false) :
    (FlatbuffersStreamingParser_mk textParseOk verifyOk gs tbuf bbuf).flatbuffers_parser_ready = false ∧
    (∀ env s, s.flatbuffers_parser_ready = false →
      convert_json_stream_to_flatbuffer env s = (false, [])) ∧
    (∀ env v s, (runValue env v s).2.flatbuffers_parser_ready =
      s.flatbuffers_parser_ready) ∧
    (∀ s, (clear s).flatbuffers_parser_ready = s.flatbuffers_parser_ready) := by
  refine ⟨?_, ?_,
    fun env v s => (sameShape_runValue env v s).2.2.2.2.2.1, fun s => rfl⟩
  · unfold FlatbuffersStreamingParser_mk
    dsimp only
    rw [if_neg (show ¬(parse_flatbuffers_text_schema textParseOk tbuf = true) by
      simp [h])]
    split <;> rfl
  · intro env s hs
    unfold convert_json_stream_to_flatbuffer
    rw [if_neg (by simp [hs])]

/-- Counterexample to C6 as stated: with a good text schema but a failed
binary-schema load (empty buffer), the engine is still ready and a
dispatch succeeds end to end, invoking the message sink: binary-schema
failure does not make the engine non-ready. -/
theorem C6_counterexample :
    (parse_flatbuffers_binary_schema true none []).1 = false ∧
    (FlatbuffersStreamingParser_mk true true none [1, 0] []).flatbuffers_parser_ready = true ∧
    (convert_json_stream_to_flatbuffer envAllTrue
      { FlatbuffersStreamingParser_mk true true none [1, 0] [] with
        ss := "x" }) = (true, [SinkKind.message]) := by
  decide

/-- Witness for C6 (amended) with a text schema whose parse fails. -/
theorem C6_witness :
    (FlatbuffersStreamingParser_mk false true none [1, 0] [1, 0]).flatbuffers_parser_ready = false :=
  (C6_schema_failure false true none [1, 0] [1, 0] (by decide)).1

/-! Mutual proof that every state reached during the traversal satisfies
the depth/path invariant, provided the starting state does (strictly below
the depth bound for member lists, which push one key). -/
mutual
theorem inv_runValue (env : Env) (v : Json) (s : State) (h : INV s) :
    ∀ t ∈ (runValue env v s).1, INV t :=
  match v with
  | Json.null => by
    intro t ht
    simp only [runValue, List.mem_singleton] at ht
    subst ht
    exact INV_of_sameShape (sameShape_set_null s) h
  | Json.boolVal b => by
    intro t ht
    simp only [runValue, List.mem_singleton] at ht
    subst ht
    exact INV_of_sameShape (sameShape_set_bool b s) h
  | Json.intVal i => by
    intro t ht
    simp only [runValue, List.mem_singleton] at ht
    subst ht
    exact INV_of_sameShape (sameShape_set_int64 i s) h
  | Json.numVal q => by
    intro t ht
    simp only [runValue, List.mem_singleton] at ht
    subst ht
    exact INV_of_sameShape (sameShape_set_number q s) h
  | Json.strVal str => by
    intro t ht
    simp only [runValue, List.mem_singleton] at ht
    subst ht
    exact INV_of_sameShape (sameShape_parse_string str s) h
  | Json.arr l => by
    obtain ⟨i1, i2, i3⟩ := h
    obtain ⟨a1, a2, a3, _⟩ := parse_array_start_fields s
    have hstart : INV (parse_array_start s) := by
      refine ⟨?_, ?_, ?_⟩
      · rw [a1]; exact i1
      · rw [a2]; omega
      · rw [a3, a1]; exact i3
    intro t ht
    simp only [runValue, List.mem_cons, List.mem_append, List.mem_singleton,
      List.not_mem_nil, or_false] at ht
    rcases ht with (rfl | ht) | rfl
    · exact hstart
    · exact inv_runList env l (parse_array_start s) hstart t ht
    · obtain ⟨t1, t2, t3, _⟩ :=
        parse_array_stop_fields (runList env l (parse_array_start s)).2
      obtain ⟨l1, l2, l3, _⟩ := sameShape_runList env l (parse_array_start s)
      refine ⟨?_, ?_, ?_⟩
      · rw [t1, l1, a1]; exact i1
      · rw [t2, l2, a2]; omega
      · rw [t3, l3, a3, t1, l1, a1]; exact i3
  | Json.obj l => by
    obtain ⟨i1, i2, i3⟩ := h
    obtain ⟨a1, a2, a3, _⟩ := parse_object_start_fields s
    intro t ht
    simp only [runValue, List.mem_cons, List.mem_append, List.mem_singleton,
      List.not_mem_nil, or_false] at ht
    rcases ht with (rfl | ht) | rfl
    · refine ⟨?_, ?_, ?_⟩
      · rw [a1]; omega
      · rw [a2]; exact i2
      · rw [a3, a1]; omega
    · refine inv_runObj env l (parse_object_start s) ?_ ?_ t ht
      · rw [a2]; exact i2
      · rw [a3, a1]; omega
    · obtain ⟨t1, t2, t3, _⟩ :=
        parse_object_stop_fields env (runObj env l (parse_object_start s)).2
      obtain ⟨l1, l2, l3, _⟩ := sameShape_runObj env l (parse_object_start s)
      refine ⟨?_, ?_, ?_⟩
      · rw [t1, l1, a1]; omega
      · rw [t2, l2, a2]; exact i2
      · rw [t3, l3, a3, t1, l1, a1]; omega

theorem inv_runList (env : Env) (l : JsonList) (s : State) (h : INV s) :
    ∀ t ∈ (runList env l s).1, INV t :=
  match l with
  | JsonList.nil => by
    intro t ht
    simp only [runList, List.not_mem_nil] at ht
  | JsonList.cons v rest => by
    have h1 : INV (parse_array_item_pre s) :=
      INV_of_sameShape (sameShape_parse_array_item_pre s) h
    have h2 : INV (runValue env v (parse_array_item_pre s)).2 :=
      INV_of_sameShape (sameShape_runValue env v (parse_array_item_pre s)) h1
    intro t ht
    simp only [runList, List.mem_cons, List.mem_append] at ht
    rcases ht with (rfl | ht) | ht
    · exact h1
    · exact inv_runValue env v (parse_array_item_pre s) h1 t ht
    · exact inv_runList env rest (runValue env v (parse_array_item_pre s)).2 h2 t ht

theorem inv_runObj (env : Env) (l : JsonObjList) (s : State)
    (h0 : 0 ≤ s.array_depth)
    (h1 : (s.current_path.length : Int) < s.object_depth) :
    ∀ t ∈ (runObj env l s).1, INV t :=
  match l with
  | JsonObjList.nil => by
    intro t ht
    simp only [runObj, List.not_mem_nil] at ht
  | JsonObjList.cons k v rest => by
    obtain ⟨p1, p2, p3, _⟩ := parse_object_item_pre_fields k s
    have hpre : INV (parse_object_item_pre k s).1 := by
      refine ⟨?_, ?_, ?_⟩
      · rw [p1]; omega
      · rw [p2]; exact h0
      · rw [p3, p1]
        simp only [List.length_append, List.length_singleton]
        omega
    have hs3 : SameShape
        (parse_object_item_post env (parse_object_item_pre k s).2
          (runValue env v (parse_object_item_pre k s).1).2) s :=
      sameShape_obj_item env k v s
        (sameShape_runValue env v (parse_object_item_pre k s).1)
    obtain ⟨q1, q2, q3, _⟩ := hs3
    intro t ht
    simp only [runObj, List.mem_cons, List.mem_append] at ht
    rcases ht with (rfl | ht) | (rfl | ht)
    · exact hpre
    · exact inv_runValue env v (parse_object_item_pre k s).1 hpre t ht
    · refine ⟨?_, ?_, ?_⟩
      · rw [q1]; omega
      · rw [q2]; exact h0
      · rw [q3, q1]; omega
    · refine inv_runObj env rest
        (parse_object_item_post env (parse_object_item_pre k s).2
          (runValue env v (parse_object_item_pre k s).1).2) ?_ ?_ t ht
      · rw [q2]; exact h0
      · rw [q3, q1]; omega
end

/-- C7: during the parse of any well-formed document from a freshly
initialised engine state, every state reached satisfies object_depth ≥ 0,
array_depth ≥ 0 and len(current_path) ≤ object_depth; after the complete
document, object_depth and array_depth are 0 and the current path is
empty. -/
theorem C7_depth_invariants (env : Env) (doc : Json) (rp ep : List String)
    (s : State) :
    (∀ t ∈ (runValue env doc (parse_stream_init rp ep s)).1,
      0 ≤ t.object_depth ∧ 0 ≤ t.array_depth ∧
        (t.current_path.length : Int) ≤ t.object_depth) ∧
    (runValue env doc (parse_stream_init rp ep s)).2.object_depth = 0 ∧
    (runValue env doc (parse_stream_init rp ep s)).2.array_depth = 0 ∧
    (runValue env doc (parse_stream_init rp ep s)).2.current_path = [] := by
  have hinit : INV (parse_stream_init rp ep s) := by
    unfold INV parse_stream_init clear
    simp
  obtain ⟨l1, l2, l3, _⟩ :=
    sameShape_runValue env doc (parse_stream_init rp ep s)
  refine ⟨fun t ht => inv_runValue env doc _ hinit t ht, ?_, ?_, ?_⟩
  · rw [l1]; rfl
  · rw [l2]; rfl
  · rw [l3]; rfl

/-- Witness for C7 at the first trace state of a concrete run. -/
theorem C7_witness :
    0 ≤ c7t.object_depth ∧ 0 ≤ c7t.array_depth ∧
      (c7t.current_path.length : Int) ≤ c7t.object_depth :=
  (C7_depth_invariants envAllFalse docA [] [] initState).1 c7t (by decide)
